import Mathlib

/-!
Verification of the prodblock state-synchronization and enforcement subsystem.

The embedding covers:
* the Relay (extension/service-worker.js): the cached lock state, the
  WebSocket lifecycle callbacks `onmessage` / `onclose`, `connect`, and
  `scheduleReconnect`;
* the Enforcer (the content script): `isAllowed`, the overlay operations
  `getOverlay` / `createOverlay` / `removeOverlay`, `handleState`,
  `setupMutationObserver`, and the mutation-observer callback.

Modelling conventions:
* JSON values delivered by `JSON.parse` are the inductive `Json` below
  (numbers as integers — no claim depends on non-integral numbers);
  a parse failure is `Option.none` at the handler's input.
* The document is the list of element ids present in it, in document
  order; `document.getElementById` finds an id in that list, element
  creation appends, `element.remove()` erases the first occurrence.
* JavaScript strings are embedded as `String`, with the primitives
  (`toLowerCase`, `trim`, `startsWith`, `endsWith`, `slice`) defined
  below on the underlying character list so that they evaluate inside
  the kernel; the inputs at stake (hostnames from `location.hostname`,
  domain entries) are ASCII, where these agree with the JavaScript
  primitives.
* Side effects of the Relay's handlers (broadcasting to tabs, arming or
  cancelling the reconnect timer, constructing a WebSocket) are recorded
  as an ordered list of `RelayAction`s emitted by each handler.
-/

/-- `s.toLowerCase()` (ASCII): lower-case every character. -/
def jsToLower (s : String) : String := String.mk (s.data.map Char.toLower)

/-- `s.trim()` (ASCII whitespace): drop leading and trailing whitespace. -/
def jsTrim (s : String) : String :=
  String.mk
    (((s.data.dropWhile Char.isWhitespace).reverse.dropWhile
        Char.isWhitespace).reverse)

/-- `s.endsWith(t)`. -/
def jsEndsWith (s t : String) : Bool := t.data.isSuffixOf s.data

/-- `s.startsWith(t)`. -/
def jsStartsWith (s t : String) : Bool := t.data.isPrefixOf s.data

/-- `s.slice(n)`: drop the first `n` characters. -/
def jsDrop (s : String) (n : Nat) : String := String.mk (s.data.drop n)

/-- `s === ""`, equivalently falsiness of the string `s`. -/
def jsIsEmpty (s : String) : Bool := s.data.isEmpty

/-- A parsed JSON value, as produced by `JSON.parse` on a Producer message. -/
inductive Json where
  | null : Json
  | bool : Bool → Json
  | num : Int → Json
  | str : String → Json
  | arr : List Json → Json
  | obj : List (String × Json) → Json

/-- Is this JSON value a boolean? -/
def Json.isBool : Json → Bool
  | .bool _ => true
  | _ => false

/-- Is this JSON value a string? -/
def Json.isStr : Json → Bool
  | .str _ => true
  | _ => false

/-- Is this JSON value an array all of whose elements are strings? -/
def Json.isStrArr : Json → Bool
  | .arr xs => xs.all Json.isStr
  | _ => false

/-- JavaScript property read `j[k]` on a parsed JSON value: defined on
objects, `undefined` (here `none`) elsewhere or when the key is absent. -/
def jsGet (j : Json) (k : String) : Option Json :=
  match j with
  | .obj fields => (fields.find? (fun p => p.1 == k)).map Prod.snd
  | _ => none

/-- JavaScript truthiness of a parsed JSON value. -/
def truthy : Json → Bool
  | .null => false
  | .bool b => b
  | .num n => n != 0
  | .str s => !s.isEmpty
  | .arr _ => true
  | .obj _ => true

/-- The wire shape `\x7blockActive: bool, allowedDomains: [string]\x7d`
(the LockState shape of the message contract). -/
def isLockStateShape (j : Json) : Bool :=
  match jsGet j "lockActive", jsGet j "allowedDomains" with
  | some la, some ad => la.isBool && ad.isStrArr
  | _, _ => false

/-- The safe default the Relay resets to on disconnect:
`\x7blockActive: false, allowedDomains: []\x7d` (service-worker.js line 8
and line 36). -/
def safeDefault : Json :=
  Json.obj [("lockActive", Json.bool false), ("allowedDomains", Json.arr [])]

/-- A STATE message as read by the Enforcer: `msg.lockActive` (a boolean in
every well-formed message) and `msg.allowedDomains`, which may be absent /
null / undefined (`none`). -/
structure StateMsg where
  lockActive : Bool
  allowedDomains : Option (List String)

/-- Extract the string carried by a JSON string value. -/
def Json.asString : Json → Option String
  | .str s => some s
  | _ => none

/-- Read a JSON value as a list of strings, when it is one. -/
def asStringList : Json → Option (List String)
  | .arr xs => xs.mapM Json.asString
  | _ => none

/-- How the Enforcer reads the fields of a broadcast message object:
`lockActive` by truthiness (absent means undefined, which is falsy),
`allowedDomains` as a string array when present and of that form. -/
def decodeMsg (j : Json) : StateMsg :=
  { lockActive := truthy ((jsGet j "lockActive").getD Json.null)
  , allowedDomains := (jsGet j "allowedDomains").bind asStringList }

/-! ## Enforcer (content script) -/

/-- The stable identifier of the overlay element. -/
def OVERLAY_ID : String := "prodblock-overlay"

/-- The document, as the ids of its elements in document order. -/
abbrev Dom := List String

/-- `document.getElementById(OVERLAY_ID) !== null`. -/
def getOverlay (d : Dom) : Bool := d.contains OVERLAY_ID

/-- `createOverlay`: a no-op when `getOverlay` finds an element, otherwise
builds the overlay element and appends it to the document element. -/
def createOverlay (d : Dom) : Dom :=
  if getOverlay d then d else d ++ [OVERLAY_ID]

/-- `removeOverlay`: removes the element `getOverlay` finds, when present
(the first element with the overlay id, per `getElementById`). -/
def removeOverlay (d : Dom) : Dom := d.erase OVERLAY_ID

/-- `hostname.replace(/^www\./, "")`: strip one leading literal `www.`. -/
def stripWww (h : String) : String :=
  if jsStartsWith h "www." then jsDrop h 4 else h

/-- `isAllowed(hostname, allowedDomains)` from the content script: no
exemption on an empty list; otherwise the hostname is normalized (leading
`www.` stripped, then lower-cased) and some candidate — trimmed and
lower-cased, empty candidates skipped — must equal the host or be a
dot-suffix of it. -/
def isAllowed (hostname : String) (allowedDomains : List String) : Bool :=
  if allowedDomains.isEmpty then false
  else
    let host := jsToLower (stripWww hostname)
    allowedDomains.any (fun d =>
      let domain := jsToLower (jsTrim d)
      if jsIsEmpty domain then false
      else host == domain || jsEndsWith host ("." ++ domain))

/-- Per-context Enforcer state: the two script-level flags plus the
document the overlay lives in. -/
structure EnforcerState where
  shouldBeBlocked : Bool
  mutationObserverActive : Bool
  dom : Dom

/-- `setupMutationObserver`: returns early when already active, otherwise
marks the observer installed (the observer itself is modelled by
`observerCallback` below). -/
def setupMutationObserver (es : EnforcerState) : EnforcerState :=
  if es.mutationObserverActive then es
  else { es with mutationObserverActive := true }

/-- `handleState(newState)`: when the lock is inactive, or the hostname is
allowed, the target is Unblocked and the overlay is removed; otherwise the
target is Blocked, the overlay is created and the observer installed.
`newState.allowedDomains || []` is `Option.getD` on the optional field. -/
def handleState (es : EnforcerState) (hostname : String) (ns : StateMsg) :
    EnforcerState :=
  if !ns.lockActive then
    { es with shouldBeBlocked := false, dom := removeOverlay es.dom }
  else
    let allowed := isAllowed hostname (ns.allowedDomains.getD [])
    if allowed then
      { es with shouldBeBlocked := false, dom := removeOverlay es.dom }
    else
      setupMutationObserver
        { es with shouldBeBlocked := true, dom := createOverlay es.dom }

/-- The mutation-observer callback: when the target is Blocked and the
overlay is gone, recreate it; otherwise do nothing. -/
def observerCallback (es : EnforcerState) : EnforcerState :=
  if es.shouldBeBlocked && !(getOverlay es.dom) then
    { es with dom := createOverlay es.dom }
  else es

/-! ## Relay (service worker) -/

/-- A side effect emitted by a Relay handler, in emission order:
broadcasting a state to the tabs, arming or cancelling the reconnect
timer, constructing a new WebSocket. -/
inductive RelayAction where
  | broadcast : Json → RelayAction
  | setTimer : RelayAction
  | clearTimer : RelayAction
  | newWebSocket : RelayAction

/-- Does this action arm the reconnect timer? -/
def RelayAction.isSetTimer : RelayAction → Bool
  | .setTimer => true
  | _ => false

/-- Relay state: the cached `state` variable, whether `reconnectTimeout`
holds a pending timer, and how many live (created, never closed) WebSocket
connections exist. -/
structure RelayState where
  state : Json
  reconnectTimeout : Bool
  liveConns : Nat

/-- The Relay's initial state (service-worker.js lines 7 to 9). -/
def initialRelay : RelayState :=
  { state := safeDefault, reconnectTimeout := false, liveConns := 0 }

/-- `scheduleReconnect()`: arms the timer only when none is pending. -/
def scheduleReconnect (rs : RelayState) : RelayState × List RelayAction :=
  if rs.reconnectTimeout then (rs, [])
  else ({ rs with reconnectTimeout := true }, [RelayAction.setTimer])

/-- `ws.onmessage`: `JSON.parse` failing (input `none`) only logs; a
successfully parsed value replaces the cached state wholesale and is then
broadcast. -/
def onMessage (rs : RelayState) (parsed : Option Json) :
    RelayState × List RelayAction :=
  match parsed with
  | none => (rs, [])
  | some j => ({ rs with state := j }, [RelayAction.broadcast j])

/-- `ws.onclose`: reset the cached state to the safe default, broadcast
it, then schedule a reconnect. -/
def onClose (rs : RelayState) : RelayState × List RelayAction :=
  let rs1 := { rs with state := safeDefault }
  let r2 := scheduleReconnect rs1
  (r2.1, RelayAction.broadcast safeDefault :: r2.2)

/-- `connect()`: cancel a pending reconnect timer, then construct a new
WebSocket (assigning it over the previous `ws` reference). `ctorOk` is
whether the constructor returns normally; when it throws, the catch block
schedules a reconnect instead. -/
def connect (ctorOk : Bool) (rs : RelayState) : RelayState × List RelayAction :=
  let r1 := if rs.reconnectTimeout
            then ({ rs with reconnectTimeout := false }, [RelayAction.clearTimer])
            else (rs, ([] : List RelayAction))
  if ctorOk then
    ({ r1.1 with liveConns := r1.1.liveConns + 1 },
      r1.2 ++ [RelayAction.newWebSocket])
  else
    let r2 := scheduleReconnect r1.1
    (r2.1, r1.2 ++ r2.2)

/-- A run of `n` consecutive disconnect events with no intervening
successful connect: the close handler fired `n` times, actions
concatenated in order. -/
def closeTrace : RelayState → Nat → RelayState × List RelayAction
  | rs, 0 => (rs, [])
  | rs, n + 1 =>
    let r1 := onClose rs
    let r2 := closeTrace r1.1 n
    (r2.1, r1.2 ++ r2.2)

/-- The exemption predicate exactly as the specification words it, for
refinement comparison with `isAllowed`: normalize the hostname (strip a
leading `www.`, lower-case), trim and lower-case the domain, then test
equality or dot-suffix. -/
def specExempt (h d : String) : Bool :=
  let host := jsToLower (stripWww h)
  let dom := jsToLower (jsTrim d)
  host == dom || jsEndsWith host ("." ++ dom)

/-! ## Helper lemmas -/

theorem getOverlay_createOverlay (d : Dom) :
    getOverlay (createOverlay d) = true := by
  unfold createOverlay
  cases hg : getOverlay d
  · simp only [Bool.false_eq_true, if_false]
    simp [getOverlay, List.contains, List.elem_eq_mem]
  · simp [hg]

theorem setupMutationObserver_fields (es : EnforcerState) :
    setupMutationObserver es =
      { es with mutationObserverActive := true } := by
  unfold setupMutationObserver
  cases es with
  | mk b m d => cases m <;> simp

theorem handleState_blocked (es : EnforcerState) (h : String) (ns : StateMsg)
    (hl : ns.lockActive = true)
    (ha : isAllowed h (ns.allowedDomains.getD []) = false) :
    handleState es h ns =
      { shouldBeBlocked := true, mutationObserverActive := true,
        dom := createOverlay es.dom } := by
  unfold handleState
  simp [hl, ha, setupMutationObserver_fields]

theorem onClose_spec (rs : RelayState) :
    onClose rs =
      ({ rs with state := safeDefault, reconnectTimeout := true },
        RelayAction.broadcast safeDefault ::
          (if rs.reconnectTimeout then [] else [RelayAction.setTimer])) := by
  cases rs with
  | mk s rt lc => cases rt <;> simp [onClose, scheduleReconnect]

theorem closeTrace_succ (rs : RelayState) (m : Nat) :
    closeTrace rs (m + 1) =
      ((closeTrace (onClose rs).1 m).1,
        (onClose rs).2 ++ (closeTrace (onClose rs).1 m).2) := rfl

theorem closeTrace_countP_of_pending (n : Nat) (rs : RelayState)
    (h : rs.reconnectTimeout = true) :
    ((closeTrace rs n).2.countP RelayAction.isSetTimer) = 0 := by
  induction n generalizing rs with
  | zero => simp [closeTrace]
  | succ m ih =>
    have h1 : (onClose rs).2 = [RelayAction.broadcast safeDefault] := by
      rw [onClose_spec]; simp [h]
    have h2 : (onClose rs).1 =
        { rs with state := safeDefault, reconnectTimeout := true } := by
      rw [onClose_spec]
    rw [closeTrace_succ, List.countP_append, h1, h2,
      ih { rs with state := safeDefault, reconnectTimeout := true } rfl]
    rfl

theorem closeTrace_countP_le_one (rs : RelayState) (n : Nat) :
    ((closeTrace rs n).2.countP RelayAction.isSetTimer) ≤ 1 := by
  cases n with
  | zero => simp [closeTrace]
  | succ m =>
    have h2 : (onClose rs).1 =
        { rs with state := safeDefault, reconnectTimeout := true } := by
      rw [onClose_spec]
    have h3 : ((closeTrace (onClose rs).1 m).2.countP
        RelayAction.isSetTimer) = 0 := by
      rw [h2]
      exact closeTrace_countP_of_pending m
        { rs with state := safeDefault, reconnectTimeout := true } rfl
    have h4 : (onClose rs).2 = RelayAction.broadcast safeDefault ::
        (if rs.reconnectTimeout then [] else [RelayAction.setTimer]) := by
      rw [onClose_spec]
    rw [closeTrace_succ, List.countP_append, h3, h4]
    cases h : rs.reconnectTimeout <;>
      simp [List.countP_cons, RelayAction.isSetTimer]

/-! ## Claims -/

/-- Claim C1, counterexample: the claimed biconditional fails for the
single-element list whose entry trims to the empty string — `isAllowed`
skips such an entry and returns false, while the claimed normalization
test holds at hostname "a." (it ends with "." ++ ""). -/
theorem isAllowed_empty_candidate_mismatch :
    isAllowed "a." [""] = false ∧ specExempt "a." "" = true :=
  ⟨by decide, by decide⟩

/-- Claim C1, amended: for every hostname and single-element domain list,
`isAllowed` agrees with the claimed normalization test exactly when the
trimmed domain entry is nonempty; an entry that trims to the empty string
is skipped, and the test returns false. -/
theorem isAllowed_singleton_eq_specExempt (h d : String) :
    isAllowed h [d] =
      (!(jsIsEmpty (jsToLower (jsTrim d))) && specExempt h d) := by
  unfold isAllowed specExempt
  simp only [List.isEmpty_cons, Bool.false_eq_true, if_false, List.any_cons,
    List.any_nil, Bool.or_false]
  cases hd : jsIsEmpty (jsToLower (jsTrim d)) <;> simp [hd]

/-- Claim C2: the close handler resets the cached state to the safe
default and emits the broadcast of that default before the (at most one)
timer-arming action; and an enforcer handling the safe-default broadcast
message targets Unblocked and removes its overlay. -/
theorem onClose_resets_broadcasts_then_schedules
    (rs : RelayState) (es : EnforcerState) (hn : String) :
    (onClose rs).1.state = safeDefault ∧
    (onClose rs).2 =
      RelayAction.broadcast safeDefault ::
        (if rs.reconnectTimeout then [] else [RelayAction.setTimer]) ∧
    decodeMsg safeDefault =
      { lockActive := false, allowedDomains := some [] } ∧
    handleState es hn (decodeMsg safeDefault) =
      { es with shouldBeBlocked := false, dom := removeOverlay es.dom } := by
  refine ⟨?_, ?_, rfl, ?_⟩
  · rw [onClose_spec]
  · rw [onClose_spec]
  · have hd : decodeMsg safeDefault =
        { lockActive := false, allowedDomains := some [] } := rfl
    rw [hd]
    simp [handleState]

/-- Claim C3, counterexample: a successfully parsed payload that is not
of the LockState shape — the number 42 — nevertheless replaces the cached
state and is broadcast, so shape violations are not a no-op. -/
theorem onMessage_accepts_any_parsed_payload :
    isLockStateShape (Json.num 42) = false ∧
    initialRelay.state = safeDefault ∧
    Json.num 42 ≠ safeDefault ∧
    (onMessage initialRelay (some (Json.num 42))).1.state = Json.num 42 ∧
    (onMessage initialRelay (some (Json.num 42))).2 =
      [RelayAction.broadcast (Json.num 42)] :=
  ⟨rfl, rfl, by simp [safeDefault], rfl, rfl⟩

/-- Claim C3, amended: the cached state is left unchanged (and nothing is
broadcast) exactly on parse failure; every successfully parsed payload,
of whatever shape, replaces the cached state wholesale and is broadcast. -/
theorem onMessage_parse_gate_only (rs : RelayState) (j : Json) :
    onMessage rs none = (rs, []) ∧
    onMessage rs (some j) =
      ({ rs with state := j }, [RelayAction.broadcast j]) :=
  ⟨rfl, rfl⟩

/-- Claim C4, counterexample: `connect` is not idempotent — called while a
connection is already live (here, right after a first successful call) it
constructs a second WebSocket and leaves two live connections, rather
than being a no-op. -/
theorem connect_opens_second_connection :
    (connect true initialRelay).1.liveConns = 1 ∧
    (connect true (connect true initialRelay).1).1.liveConns = 2 ∧
    (connect true (connect true initialRelay).1).2 =
      [RelayAction.newWebSocket] :=
  ⟨rfl, rfl, rfl⟩

/-- Claim C4, amended: `connect` cancels any pending reconnect timer
before the attempt starts, then unconditionally constructs one new
WebSocket, overwriting (without closing) the previous reference — each
successful call adds one live connection. -/
theorem connect_clears_timer_then_opens (rs : RelayState) :
    connect true rs =
      ({ rs with reconnectTimeout := false, liveConns := rs.liveConns + 1 },
        (if rs.reconnectTimeout then [RelayAction.clearTimer] else []) ++
          [RelayAction.newWebSocket]) := by
  cases rs with
  | mk s rt lc => cases rt <;> simp [connect]

/-- Claim C5: with the lock active and an empty allow-list, `isAllowed`
exempts no hostname, and the enforcer targets Blocked — the overlay is
created and present — for every hostname (full-focus mode). -/
theorem empty_allowlist_blocks_every_hostname
    (es : EnforcerState) (hn : String) :
    isAllowed hn [] = false ∧
    handleState es hn { lockActive := true, allowedDomains := some [] } =
      { shouldBeBlocked := true, mutationObserverActive := true,
        dom := createOverlay es.dom } ∧
    getOverlay
      (handleState es hn
        { lockActive := true, allowedDomains := some [] }).dom = true := by
  have h1 : isAllowed hn [] = false := rfl
  have h2 := handleState_blocked es hn
    { lockActive := true, allowedDomains := some [] } rfl h1
  exact ⟨h1, h2, by rw [h2]; exact getOverlay_createOverlay es.dom⟩

/-- Claim C6: with the lock inactive, the enforcer targets Unblocked and
removes the overlay; the result does not depend on the allow-list, which
is never consulted. -/
theorem inactive_lock_unblocks (es : EnforcerState) (hn : String)
    (ad : Option (List String)) :
    handleState es hn { lockActive := false, allowedDomains := ad } =
      { es with shouldBeBlocked := false, dom := removeOverlay es.dom } := by
  simp [handleState]

/-- Claim C7: with target state Blocked, one mutation-observer callback
invocation leaves the overlay present whatever the document holds (in
particular it recreates an overlay removed by any means), with no state
message involved; with target state not Blocked, the callback changes
nothing. -/
theorem observer_recreates_overlay (es : EnforcerState) :
    getOverlay
      (observerCallback { es with shouldBeBlocked := true }).dom = true ∧
    observerCallback { es with shouldBeBlocked := false } =
      { es with shouldBeBlocked := false } := by
  constructor
  · unfold observerCallback
    cases hg : getOverlay es.dom
    · simp [hg, getOverlay_createOverlay]
    · simp [hg]
  · unfold observerCallback
    simp

/-- Claim C8: overlay creation is idempotent — from a document holding no
element with the overlay id, two consecutive `createOverlay` calls leave
exactly one such element, the second call being a no-op. -/
theorem createOverlay_twice_exactly_one (d : Dom)
    (h : d.count OVERLAY_ID = 0) :
    createOverlay (createOverlay d) = createOverlay d ∧
    (createOverlay (createOverlay d)).count OVERLAY_ID = 1 := by
  have hmem : OVERLAY_ID ∉ d := by
    rw [← List.count_eq_zero]; exact h
  have hg : getOverlay d = false := by
    simp [getOverlay, List.contains, List.elem_eq_mem, hmem]
  have hc1 : createOverlay d = d ++ [OVERLAY_ID] := by
    simp [createOverlay, hg]
  have hc2 : createOverlay (createOverlay d) = createOverlay d := by
    show (if getOverlay (createOverlay d) then createOverlay d
      else createOverlay d ++ [OVERLAY_ID]) = createOverlay d
    rw [getOverlay_createOverlay]
    simp
  refine ⟨hc2, ?_⟩
  rw [hc2, hc1, List.count_append, h]
  rfl

/-- Claim C8, witness: the empty document holds no overlay element, and
two consecutive creations on it leave exactly one. -/
theorem createOverlay_twice_exactly_one_witness :
    (([] : Dom).count OVERLAY_ID = 0) ∧
    (createOverlay (createOverlay ([] : Dom)) = createOverlay ([] : Dom) ∧
      (createOverlay (createOverlay ([] : Dom))).count OVERLAY_ID = 1) :=
  ⟨rfl, createOverlay_twice_exactly_one [] rfl⟩

/-- Claim C9: `scheduleReconnect` is a no-op (state unchanged, no action)
while a timer is pending, and any run of consecutive disconnect events
with no intervening connect arms the reconnect timer at most once in
total — no duplicate or overlapping reconnect attempts. -/
theorem reconnect_timer_singleton (rs : RelayState) (n : Nat) :
    scheduleReconnect { rs with reconnectTimeout := true } =
      ({ rs with reconnectTimeout := true }, []) ∧
    ((closeTrace rs n).2.countP RelayAction.isSetTimer) ≤ 1 :=
  ⟨by simp [scheduleReconnect], closeTrace_countP_le_one rs n⟩

/-- Claim C10: a state message with the lock active but the allow-list
field absent (null or undefined) is handled exactly as the empty list —
the enforcer targets Blocked and shows the overlay for every hostname. -/
theorem missing_allowlist_is_full_focus (es : EnforcerState) (hn : String) :
    handleState es hn { lockActive := true, allowedDomains := none } =
      handleState es hn { lockActive := true, allowedDomains := some [] } ∧
    (handleState es hn
      { lockActive := true, allowedDomains := none }).shouldBeBlocked
        = true ∧
    getOverlay
      (handleState es hn
        { lockActive := true, allowedDomains := none }).dom = true := by
  have h2 := handleState_blocked es hn
    { lockActive := true, allowedDomains := none } rfl rfl
  refine ⟨rfl, ?_, ?_⟩
  · rw [h2]
  · rw [h2]; exact getOverlay_createOverlay es.dom
